import Mathlib

/-!
Verification development for the browser resource manager of the
`mcp-webresearch` repository (browser pool, circuit breaker, admission
queue, navigation protocol, page validator, consent dismissal).

The definitions below are a shallow embedding of the TypeScript source in
`src/services/browser.ts` (the playwright-based browser service; line
references are to that file) together with the configuration constants of
`src/config/index.ts`.  Timestamps (`Date.now()`) are modelled as `Nat`,
page/instance object identity as `Nat` ids, and the external browser
driver (playwright) as explicit oracle inputs: the outcome of each
navigation attempt, the DOM facts that `page.evaluate` would observe, and
the result of each `page.$` query are parameters of the corresponding
function.
-/

set_option autoImplicit false

namespace WebResearch

/-! ## Configuration constants (`src/config/index.ts`) -/

namespace SERVER_CONFIG

/-- Constant `SERVER_CONFIG.maxConcurrentBrowsers` (config line 6). -/
def maxConcurrentBrowsers : Nat := 1

end SERVER_CONFIG

namespace BROWSER_CONFIG

/-- Constant `BROWSER_CONFIG.maxRetries` (config line 17). -/
def maxRetries : Nat := 2

/-- Constant `BROWSER_CONFIG.initialRetryDelay` (config line 18). -/
def initialRetryDelay : Nat := 500

/-- Constant `BROWSER_CONFIG.maxRetryDelay` (config line 19). -/
def maxRetryDelay : Nat := 2000

/-- Constant `BROWSER_CONFIG.navigationTimeout` (config line 20). -/
def navigationTimeout : Nat := 15000

/-- Constant `BROWSER_CONFIG.networkIdleTimeout` (config line 21). -/
def networkIdleTimeout : Nat := 5000

/-- Constant `BROWSER_CONFIG.minContentWords` (config line 22). -/
def minContentWords : Nat := 10

/-- Constant `BROWSER_CONFIG.maxPageLoadTime` (config line 23). -/
def maxPageLoadTime : Nat := 20000

/-- Constant `BROWSER_CONFIG.maxMemoryMB` (config line 25). -/
def maxMemoryMB : Nat := 512

end BROWSER_CONFIG

namespace PERFORMANCE_CONFIG

/-- Constant `PERFORMANCE_CONFIG.criticalRequestThreshold` (config line 35). -/
def criticalRequestThreshold : Nat := 10000

/-- Constant `PERFORMANCE_CONFIG.maxQueueSize` (config line 36). -/
def maxQueueSize : Nat := 1

/-- Constant `PERFORMANCE_CONFIG.queueTimeoutMs` (config line 37). -/
def queueTimeoutMs : Nat := 15000

end PERFORMANCE_CONFIG

namespace CIRCUIT_BREAKER_CONFIG

/-- Constant `CIRCUIT_BREAKER_CONFIG.failureThreshold` (config line 42). -/
def failureThreshold : Nat := 2

/-- Constant `CIRCUIT_BREAKER_CONFIG.resetTimeout` (config line 43). -/
def resetTimeout : Nat := 15000

/-- Constant `CIRCUIT_BREAKER_CONFIG.monitoringInterval` (config line 45). -/
def monitoringInterval : Nat := 5000

end CIRCUIT_BREAKER_CONFIG

namespace SECURITY_CONFIG

/-- Constant `SECURITY_CONFIG.allowedProtocols` (config line 57). -/
def allowedProtocols : List String := ["http:", "https:"]

/-- Constant `SECURITY_CONFIG.maxUrlLength` (config line 59). -/
def maxUrlLength : Nat := 2048

end SECURITY_CONFIG

/-- Constant `CONSENT_REGIONS` (config lines 73-91). -/
def CONSENT_REGIONS : List String :=
  ["google.com", "google.co.uk", "google.de", "google.fr", "google.it",
   "google.es", "google.nl", "google.pl", "google.ie", "google.dk",
   "google.se", "google.no", "google.fi", "google.pt", "google.ch",
   "google.at", "google.be"]

/-- Test whether `pat` is a prefix of the second character list. -/
def charsPrefix : List Char → List Char → Bool
  | [], _ => true
  | _ :: _, [] => false
  | c :: cs, d :: ds => c == d && charsPrefix cs ds

/-- Test whether `pat` occurs as a contiguous sublist of the haystack. -/
def charsContains (pat : List Char) : List Char → Bool
  | [] => charsPrefix pat []
  | c :: rest => charsPrefix pat (c :: rest) || charsContains pat rest

/-- JavaScript `String.prototype.includes`: substring containment (always
`true` for the empty pattern). -/
def jsIncludes (s pat : String) : Bool := charsContains pat.data s.data

/-- JavaScript `String.prototype.toLowerCase`, character by character (all
phrase lists in the source are ASCII). -/
def jsToLower (s : String) : String := ⟨s.data.map Char.toLower⟩

/-! ## Circuit breaker (`browser.ts` lines 26-31, 55-60, 166-199) -/

/-- The `state` field of the `CircuitBreaker` interface (line 27). -/
inductive CBState where
  | CLOSED
  | OPEN
  | HALF_OPEN
deriving DecidableEq, Repr

/-- The `CircuitBreaker` interface (lines 26-31). -/
structure CircuitBreaker where
  state : CBState
  failures : Nat
  lastFailure : Nat
  lastSuccess : Nat
deriving DecidableEq, Repr

/-- The breaker built in the `BrowserPool` constructor (lines 55-60):
`CLOSED`, zero failures, `lastSuccess = Date.now()`. -/
def initialCircuitBreaker (startTime : Nat) : CircuitBreaker :=
  { state := CBState.CLOSED, failures := 0, lastFailure := 0, lastSuccess := startTime }

/-- Source `updateCircuitBreaker(success)` (lines 166-185).  On success: a
`HALF_OPEN` breaker closes and clears its counter, and `lastSuccess` is
stamped; nothing else changes.  On failure: the counter is incremented and
`lastFailure` stamped, and the breaker opens exactly when the incremented
counter has reached `failureThreshold`. -/
def updateCircuitBreaker (now : Nat) (success : Bool) (cb : CircuitBreaker) : CircuitBreaker :=
  if success then
    let cb1 :=
      if cb.state = CBState.HALF_OPEN then
        { cb with state := CBState.CLOSED, failures := 0 }
      else cb
    { cb1 with lastSuccess := now }
  else
    let cb1 := { cb with failures := cb.failures + 1, lastFailure := now }
    if CIRCUIT_BREAKER_CONFIG.failureThreshold ≤ cb1.failures then
      { cb1 with state := CBState.OPEN }
    else cb1

/-- One tick of the `setInterval` body installed by
`startCircuitBreakerMonitoring` (lines 187-199): an `OPEN` breaker whose
last failure is more than `resetTimeout` in the past becomes `HALF_OPEN`
with a cleared counter. -/
def circuitBreakerMonitorStep (now : Nat) (cb : CircuitBreaker) : CircuitBreaker :=
  if cb.state = CBState.OPEN ∧ CIRCUIT_BREAKER_CONFIG.resetTimeout < now - cb.lastFailure then
    { cb with state := CBState.HALF_OPEN, failures := 0 }
  else cb

/-- A sequence of `updateCircuitBreaker` calls, each tagged with its
`Date.now()` timestamp and its `success` argument, applied in order. -/
def runCircuitBreaker (cb : CircuitBreaker) : List (Nat × Bool) → CircuitBreaker
  | [] => cb
  | (t, ok) :: rest => runCircuitBreaker (updateCircuitBreaker t ok cb) rest

/-- Number of `success = false` entries in an outcome sequence. -/
def failuresIn : List (Nat × Bool) → Nat
  | [] => 0
  | (_, true) :: rest => failuresIn rest
  | (_, false) :: rest => failuresIn rest + 1

/-- Source `acquirePage` (lines 223-256), projected onto the circuit breaker and
the admission guards.  `queueLength` is `this.requestQueue.length` at
entry; `body` is the outcome of the awaited queue promise (resolution with
a page id, or rejection: queue-timeout or `processQueue` failure).  The
result pairs the breaker after the final `updateCircuitBreaker` call with
the value returned or error thrown. -/
def acquirePage (now : Nat) (cb : CircuitBreaker) (queueLength : Nat)
    (body : Except String Nat) : CircuitBreaker × Except String Nat :=
  if cb.state = CBState.OPEN then
    (updateCircuitBreaker now false cb,
     Except.error "Circuit breaker is open, requests are blocked")
  else if PERFORMANCE_CONFIG.maxQueueSize ≤ queueLength then
    (updateCircuitBreaker now false cb, Except.error "Request queue is full")
  else
    match body with
    | Except.ok p => (updateCircuitBreaker now true cb, Except.ok p)
    | Except.error e => (updateCircuitBreaker now false cb, Except.error e)

/-! ## Browser instances and the pool (`browser.ts` lines 17-24, 46-51, 73-164, 223-369)

A browsing context is modelled by its cookie and permission stores, the
set of currently open pages (by id), and a counter supplying the id of the
next page `context.newPage()` would open.  Object identity of instances
and queue entries (`indexOf` in the source) is modelled by `Nat` ids. -/

/-- State of one playwright `BrowserContext` as the pool observes it. -/
structure BrowserContextState where
  cookies : List String
  permissions : List String
  openPages : List Nat
  nextPageId : Nat
  alive : Bool
deriving DecidableEq, Repr

/-- The `BrowserInstance` interface (lines 17-24), together with the
browser process handle (`browserAlive`) and the context state. -/
structure BrowserInstance where
  id : Nat
  browserAlive : Bool
  context : BrowserContextState
  page : Nat
  lastUsed : Nat
  memoryUsage : Nat
  failureCount : Nat
deriving DecidableEq, Repr

/-- Test `instance.page.isClosed()`: the instance's page is closed when it is
no longer among the context's open pages. -/
def pageIsClosed (inst : BrowserInstance) : Bool :=
  !(inst.context.openPages.contains inst.page)

/-- Source `createBrowserInstance()` (lines 73-164), successful case: a fresh
browser process, a fresh context with empty cookie/permission stores and
one open page, `lastUsed = Date.now()`, zero memory usage and failures. -/
def createBrowserInstance (now : Nat) (instId : Nat) : BrowserInstance :=
  { id := instId, browserAlive := true,
    context := { cookies := [], permissions := [], openPages := [0],
                 nextPageId := 1, alive := true },
    page := 0, lastUsed := now, memoryUsage := 0, failureCount := 0 }

/-- Source `recycleBrowserInstance(instance)` (lines 297-325), successful path
(the `try` block): clear cookies and permissions on the context, close
every page of the context EXCEPT the instance's current page
(`pages.filter(p => p !== instance.page).map(p => p.close())`), open a
fresh page and make it the instance's page, stamp `lastUsed`, and zero
`failureCount` and `memoryUsage`.  The browser process and the context are
untouched, and so is the previously current page. -/
def recycleBrowserInstance (now : Nat) (inst : BrowserInstance) : BrowserInstance :=
  let ctx1 := { inst.context with cookies := [], permissions := [] }
  let ctx2 := { ctx1 with openPages := ctx1.openPages.filter (fun p => p == inst.page) }
  let newPage := ctx2.nextPageId
  let ctx3 := { ctx2 with openPages := ctx2.openPages ++ [newPage], nextPageId := newPage + 1 }
  { inst with context := ctx3, page := newPage, lastUsed := now,
              failureCount := 0, memoryUsage := 0 }

/-- The availability test of `processQueue` (lines 264-270):
`!inst.page.isClosed() && inst.failureCount < 3`. -/
def instanceAvailable (inst : BrowserInstance) : Bool :=
  !(pageIsClosed inst) && decide (inst.failureCount < 3)

/-- The eviction test of `cleanupExpiredInstances` (lines 340-346): idle
longer than `2 * maxPageLoadTime`, or `failureCount >= 3`, or memory above
`maxMemoryMB` (in bytes). -/
def instanceExpired (now : Nat) (inst : BrowserInstance) : Bool :=
  decide (BROWSER_CONFIG.maxPageLoadTime * 2 < now - inst.lastUsed)
  || decide (3 ≤ inst.failureCount)
  || decide (BROWSER_CONFIG.maxMemoryMB * 1024 * 1024 < inst.memoryUsage)

/-- Source `cleanupExpiredInstances()` (lines 336-351): every instance meeting an
eviction criterion is destroyed and spliced out (the backwards `for` loop
with `splice` keeps the surviving instances in order). -/
def cleanupExpiredInstances (now : Nat) (pool : List BrowserInstance) : List BrowserInstance :=
  pool.filter (fun inst => !(instanceExpired now inst))

/-- The `instance.lastUsed = Date.now()` mutation of `processQueue` (line
283) applied to the instance `pool.find` returned: the first available
instance is stamped, the others are untouched. -/
def touchFirstAvailable (now : Nat) : List BrowserInstance → List BrowserInstance
  | [] => []
  | inst :: rest =>
    if instanceAvailable inst then { inst with lastUsed := now } :: rest
    else inst :: touchFirstAvailable now rest

/-- The `pool.reduce` of `processQueue` (lines 276-278): least-recently
used instance, first element winning ties (strict `<` comparison). -/
def oldestReduce (h : BrowserInstance) (t : List BrowserInstance) : BrowserInstance :=
  t.foldl (fun oldest current => if current.lastUsed < oldest.lastUsed then current else oldest) h

/-- In-place mutation of the pool element with the given id (object
identity in the source): replaces the first such element. -/
def setFirstById : List BrowserInstance → Nat → BrowserInstance → List BrowserInstance
  | [], _, _ => []
  | inst :: rest, tid, v =>
    if inst.id = tid then v :: rest else inst :: setFirstById rest tid v

/-- One entry of `this.requestQueue` (line 51): a pending `acquirePage`
promise (identified by id, standing for the closure's object identity)
with its enqueue timestamp. -/
structure QueueEntry where
  id : Nat
  timestamp : Nat
deriving DecidableEq, Repr

/-- The mutable state of the `BrowserPool` singleton (lines 46-64). -/
structure PoolState where
  pool : List BrowserInstance
  requestQueue : List QueueEntry
  circuitBreaker : CircuitBreaker
  nextInstanceId : Nat
  nextEntryId : Nat
deriving Repr

/-- Operation `this.requestQueue.splice(index, 1)` for the entry with the given id. -/
def removeFirstEntryById : List QueueEntry → Nat → List QueueEntry
  | [], _ => []
  | e :: rest, eid => if e.id = eid then rest else e :: removeFirstEntryById rest eid

/-- The queue-timeout callback of `acquirePage` (lines 241-247): when the
entry is still queued (`indexOf !== -1`) it is spliced out and its promise
rejected with the timeout error; otherwise nothing happens.  Returns the
queue after the callback and the rejection it performed, if any. -/
def queueTimeoutFire (q : List QueueEntry) (eid : Nat) : List QueueEntry × Option String :=
  if q.any (fun e => e.id == eid) then
    (removeFirstEntryById q eid, some "Request queue timeout")
  else (q, none)

/-- The queue-timeout callback as a transition of the pool state: a
performed rejection propagates through the `catch` of `acquirePage`,
which reports the failure to the circuit breaker. -/
def queueTimeoutStep (now : Nat) (eid : Nat) (st : PoolState) : PoolState :=
  let fired := queueTimeoutFire st.requestQueue eid
  if fired.2.isSome then
    { st with requestQueue := fired.1,
              circuitBreaker := updateCircuitBreaker now false st.circuitBreaker }
  else { st with requestQueue := fired.1 }

/-- Source `processQueue()` (lines 258-295).  The oracle booleans stand for the
fallible awaits on the browser driver: `createOk` for
`createBrowserInstance` succeeding, `recycleOk` for the `try` block of
`recycleBrowserInstance` succeeding, and `recycleCreateOk` for the
replacement `createBrowserInstance` inside its `catch` succeeding.  Every
branch that reaches the end (or the `catch` of `processQueue`) shifts the
head entry off the queue, resolving or rejecting it. -/
def processQueue (now : Nat) (createOk recycleOk recycleCreateOk : Bool)
    (st : PoolState) : PoolState :=
  match st.requestQueue with
  | [] => st
  | _ :: restQueue =>
    let pool := cleanupExpiredInstances now st.pool
    if pool.any instanceAvailable then
      -- an available instance exists: stamp it and resolve the head entry
      { st with pool := touchFirstAvailable now pool, requestQueue := restQueue }
    else if pool.length < SERVER_CONFIG.maxConcurrentBrowsers then
      if createOk then
        let fresh := createBrowserInstance now st.nextInstanceId
        { st with pool := pool ++ [fresh], requestQueue := restQueue,
                  nextInstanceId := st.nextInstanceId + 1 }
      else
        -- createBrowserInstance threw: the catch shifts and rejects the head
        { st with pool := pool, requestQueue := restQueue }
    else
      match pool with
      | [] =>
        -- pool.reduce on an empty array throws: the catch shifts and rejects
        { st with pool := pool, requestQueue := restQueue }
      | h :: t =>
        let target := oldestReduce h t
        if recycleOk then
          { st with pool := setFirstById pool target.id (recycleBrowserInstance now target),
                    requestQueue := restQueue }
        else if recycleCreateOk then
          -- recycle failed; its catch replaced the slot with a fresh instance.
          -- The local `instance` variable of processQueue still refers to the
          -- replaced object, so the final lastUsed stamp does not touch the pool.
          { st with pool := setFirstById pool target.id (createBrowserInstance now st.nextInstanceId),
                    requestQueue := restQueue, nextInstanceId := st.nextInstanceId + 1 }
        else
          -- the replacement create threw out of recycleBrowserInstance:
          -- the catch of processQueue shifts and rejects the head
          { st with pool := pool, requestQueue := restQueue }

/-- One `acquirePage()` call (lines 223-256) as a transition of the pool
state: the two fail-fast guards report a failure to the breaker and leave
pool and queue untouched; otherwise the entry is enqueued and the
synchronous part of `processQueue` runs.  (The later resolution-dependent
`updateCircuitBreaker` call only mutates the breaker, never the pool.) -/
def acquireStep (now : Nat) (createOk recycleOk recycleCreateOk : Bool)
    (st : PoolState) : PoolState :=
  if st.circuitBreaker.state = CBState.OPEN then
    { st with circuitBreaker := updateCircuitBreaker now false st.circuitBreaker }
  else if PERFORMANCE_CONFIG.maxQueueSize ≤ st.requestQueue.length then
    { st with circuitBreaker := updateCircuitBreaker now false st.circuitBreaker }
  else
    let entry : QueueEntry := { id := st.nextEntryId, timestamp := now }
    processQueue now createOk recycleOk recycleCreateOk
      { st with requestQueue := st.requestQueue ++ [entry],
                nextEntryId := st.nextEntryId + 1 }

/-- One tick of the performance-monitoring interval (lines 201-221) for
the instance with the given id: when its measured memory exceeds the
limit, the instance is recycled in place (with the same failure handling
as in `processQueue`); the pool never changes size. -/
def perfMonitorStep (now : Nat) (instId : Nat) (measuredMemory : Nat)
    (recycleOk recycleCreateOk : Bool) (st : PoolState) : PoolState :=
  match st.pool.find? (fun i => i.id == instId) with
  | none => st
  | some inst =>
    let inst1 := { inst with memoryUsage := measuredMemory }
    let st1 := { st with pool := setFirstById st.pool inst.id inst1 }
    if BROWSER_CONFIG.maxMemoryMB * 1024 * 1024 < measuredMemory then
      if recycleOk then
        { st1 with pool := setFirstById st1.pool inst1.id (recycleBrowserInstance now inst1) }
      else if recycleCreateOk then
        { st1 with pool := setFirstById st1.pool inst1.id (createBrowserInstance now st1.nextInstanceId),
                   nextInstanceId := st1.nextInstanceId + 1 }
      else st1
    else st1

/-- The events that mutate the pool singleton: `acquirePage` calls, ticks
of the maintenance interval (lines 353-359), firings of the queue-timeout
callback, ticks of the performance monitor, and `cleanup()` (lines
361-369, which empties the pool). -/
inductive PoolEvent where
  | acquire (now : Nat) (createOk recycleOk recycleCreateOk : Bool)
  | sweep (now : Nat)
  | queueTimeoutFires (now : Nat) (entryId : Nat)
  | perfCheck (now : Nat) (instId : Nat) (measuredMemory : Nat) (recycleOk recycleCreateOk : Bool)
  | shutdown

/-- Interpretation of one event. -/
def poolStep (st : PoolState) : PoolEvent → PoolState
  | PoolEvent.acquire now c r rc => acquireStep now c r rc st
  | PoolEvent.sweep now => { st with pool := cleanupExpiredInstances now st.pool }
  | PoolEvent.queueTimeoutFires now eid => queueTimeoutStep now eid st
  | PoolEvent.perfCheck now iid mem r rc => perfMonitorStep now iid mem r rc st
  | PoolEvent.shutdown => { st with pool := [] }

/-- A whole execution: events applied in order. -/
def runPool (st : PoolState) (events : List PoolEvent) : PoolState :=
  events.foldl poolStep st

/-- The state the `BrowserPool` constructor produces: empty pool, empty
queue, closed breaker. -/
def initialPoolState (startTime : Nat) : PoolState :=
  { pool := [], requestQueue := [],
    circuitBreaker := initialCircuitBreaker startTime,
    nextInstanceId := 0, nextEntryId := 0 }

/-! ## Page validator (`browser.ts` lines 512-639) -/

/-- The `ValidationResult` interface (lines 12-15). -/
structure ValidationResult where
  isValid : Bool
  error : Option String
deriving DecidableEq, Repr

/-- The `performanceMetrics` component of `PageValidation` (lines 39-43). -/
structure PerformanceMetrics where
  loadTime : Nat
  resourceCount : Nat
  memoryUsage : Nat
deriving DecidableEq, Repr

/-- The `PageValidation` interface (lines 33-44): the value
`page.evaluate` returns to `validatePage`. -/
structure PageValidation where
  wordCount : Nat
  botProtection : Bool
  suspiciousTitle : Bool
  title : String
  hasErrorContent : Bool
  performanceMetrics : PerformanceMetrics
deriving DecidableEq, Repr

/-- The DOM facts of a loaded page that the `page.evaluate` callback of
`validatePage` reads: which selectors `document.querySelector` finds, the
document title, `document.body.innerText` (`none` models a nullish
value, turned into `''` by the `|| ''` in the source), the performance
readings, and `page.url()`. -/
structure PageState where
  selectorPresent : String → Bool
  title : String
  bodyInnerText : Option String
  loadTime : Nat
  resourceCount : Nat
  memoryUsage : Nat
  url : String

/-- Array `botProtectionSelectors` (lines 515-528). -/
def botProtectionSelectors : List String :=
  ["#challenge-running", "#cf-challenge-running", "#px-captcha",
   "#ddos-protection", "#waf-challenge-html", ".ray-id", "#captcha-box",
   ".g-recaptcha", "#h-captcha", ".turnstile-wrapper",
   "[class*=\"captcha\"]", "[id*=\"captcha\"]"]

/-- Array `suspiciousTitlePhrases` (lines 534-548). -/
def suspiciousTitlePhrases : List String :=
  ["security check", "ddos protection", "please wait", "just a moment",
   "attention required", "access denied", "verify human", "bot protection",
   "captcha required", "verification required", "checking your browser",
   "javascript required", "cookies required"]

/-- Array `errorIndicators` (lines 558-565). -/
def errorIndicators : List String :=
  ["404 not found", "page not found", "access denied", "forbidden",
   "error occurred", "service unavailable"]

/-- Number of maximal whitespace-free runs; `inWord` records whether the
previous character was part of a run. -/
def countWordsAux : List Char → Bool → Nat
  | [], _ => 0
  | c :: rest, inWord =>
    if c.isWhitespace then countWordsAux rest false
    else (if inWord then 0 else 1) + countWordsAux rest true

/-- JavaScript `String.prototype.trim`: strip whitespace at both ends. -/
def jsTrimChars (l : List Char) : List Char :=
  ((l.dropWhile (fun c => c.isWhitespace)).reverse.dropWhile (fun c => c.isWhitespace)).reverse

/-- JavaScript `bodyText.trim().split(/\s+/).length` (line 556): splitting
the empty string yields one (empty) fragment, so a blank body counts as
one word; otherwise the number of maximal whitespace-free runs. -/
def jsWordCount (s : String) : Nat :=
  let t := jsTrimChars s.data
  if t.isEmpty then 1 else countWordsAux t false

/-- The `page.evaluate` callback of `validatePage` (lines 514-586). -/
def pageEvaluateValidation (p : PageState) : PageValidation :=
  let bodyText := p.bodyInnerText.getD ""
  { wordCount := jsWordCount bodyText,
    botProtection := botProtectionSelectors.any (fun sel => p.selectorPresent sel),
    suspiciousTitle := suspiciousTitlePhrases.any (fun phrase => jsIncludes (jsToLower p.title) phrase),
    title := p.title,
    hasErrorContent := errorIndicators.any (fun ind => jsIncludes (jsToLower bodyText) ind),
    performanceMetrics :=
      { loadTime := p.loadTime, resourceCount := p.resourceCount,
        memoryUsage := p.memoryUsage } }

/-- Source `validatePage(page)` (lines 512-639), non-throwing path: the six
signal checks in source order, each returning `isValid = false` with its
message, and `isValid = true` when none fires. -/
def validatePage (p : PageState) : ValidationResult :=
  let v := pageEvaluateValidation p
  if v.botProtection then
    { isValid := false, error := some "Bot protection or CAPTCHA detected" }
  else if v.suspiciousTitle then
    { isValid := false,
      error := some ("Suspicious page title detected: \"" ++ v.title ++ "\"") }
  else if v.wordCount < BROWSER_CONFIG.minContentWords then
    { isValid := false,
      error := some ("Page contains insufficient content (" ++ toString v.wordCount ++ " words)") }
  else if v.hasErrorContent then
    { isValid := false, error := some "Page contains error messages or unavailable content" }
  else if PERFORMANCE_CONFIG.criticalRequestThreshold < v.performanceMetrics.loadTime then
    { isValid := false, error := some "Page load time exceeded critical threshold" }
  else if jsIncludes p.url "data:" || jsIncludes p.url "javascript:" then
    { isValid := false, error := some "Potentially malicious URL scheme detected" }
  else { isValid := true, error := none }

/-! ## Navigation protocol (`browser.ts` lines 391-510) -/

/-- The outcome of `new URL(url)` on a URL string: `protocol` (scheme with
trailing colon) and `hostname`.  `new URL` itself is a Node builtin, so
the parse result travels with the string. -/
structure ParsedUrl where
  protocol : String
  hostname : String
deriving DecidableEq, Repr

/-- A URL string together with its `new URL` parse (`none` when `new URL`
throws). -/
structure UrlString where
  raw : String
  parsed : Option ParsedUrl
deriving DecidableEq, Repr

/-- The message of the terminal error (line 495). -/
def navFailedMsg (attempts : Nat) (msg : String) : String :=
  "Navigation failed after " ++ toString attempts ++ " attempts: " ++ msg

/-- What the browser driver does with one navigation attempt: the
`page.goto` response (`none` when no response was received, otherwise
HTTP status and status text), the validator's verdict on the loaded page,
and `page.url()` after navigation. -/
structure AttemptEnv where
  response : Option (Nat × String)
  validation : ValidationResult
  finalUrl : UrlString

/-- The `try` block of one iteration of the retry loop (lines 443-488):
fail without a response; fail on HTTP status `>= 400`; fail when the
validator rejects the page (throwing `validation.error`); on a redirect
(`finalUrl !== url`), fail when the landed protocol is not allowed;
otherwise the attempt succeeds.  (The network-idle race only logs.) -/
def runAttempt (url : String) (env : AttemptEnv) : Except String Unit :=
  match env.response with
  | none => Except.error "Navigation failed: no response received"
  | some (status, statusText) =>
    if 400 ≤ status then
      Except.error ("HTTP " ++ toString status ++ ": " ++ statusText)
    else if !env.validation.isValid then
      Except.error (env.validation.error.getD "")
    else if env.finalUrl.raw ≠ url then
      match env.finalUrl.parsed with
      | none => Except.error "Invalid URL"
      | some fp =>
        if SECURITY_CONFIG.allowedProtocols.contains fp.protocol then Except.ok ()
        else Except.error ("Redirect to unsupported protocol: " ++ fp.protocol)
    else Except.ok ()

/-- The `while (attempts < maxRetries)` retry loop (lines 439-505), with
`done` attempts already made and `remaining = maxRetries - done` left.
A failed attempt increments the counter; once it reaches `maxRetries` the
terminal error is thrown, otherwise the loop backs off (the sleep has no
observable effect here) and retries.  Returns the outcome together with
the number of attempts performed. -/
def navLoopGo (attempt : Nat → Except String Unit) : Nat → Nat → Except String Unit × Nat
  | done, 0 => (Except.ok (), done)
  | done, remaining + 1 =>
    match attempt done with
    | Except.ok _ => (Except.ok (), done + 1)
    | Except.error msg =>
      if remaining = 0 then (Except.error (navFailedMsg (done + 1) msg), done + 1)
      else navLoopGo attempt (done + 1) remaining

/-- Source `safePageNavigation(page, url)` (lines 391-510): validate the URL
(protocol in the allowed set, then length at most `maxUrlLength`; a
violation throws before any navigation), seed the consent cookies (a page
side effect with no bearing on the result), then run the retry loop.
`env n` is the driver's behaviour on attempt `n`.  Returns the outcome
and the number of navigation attempts performed. -/
def safePageNavigation (u : UrlString) (env : Nat → AttemptEnv) : Except String Unit × Nat :=
  match u.parsed with
  | none => (Except.error "Invalid URL", 0)
  | some p =>
    if SECURITY_CONFIG.allowedProtocols.contains p.protocol then
      if SECURITY_CONFIG.maxUrlLength < u.raw.length then
        (Except.error "URL exceeds maximum length", 0)
      else
        navLoopGo (fun n => runAttempt u.raw (env n)) 0 BROWSER_CONFIG.maxRetries
    else
      (Except.error ("Unsupported protocol: " ++ p.protocol), 0)

/-! ## Consent dismissal (`browser.ts` lines 641-714) -/

/-- The page operations `dismissGoogleConsent` can perform after its
region guard: waits, `page.$` queries over the consent selector list,
the bundle of accept-button clicks (`Promise.any` of seven attempts), and
the wait for the dialog to disappear.  Reading `page.url()` is not an
operation: it mutates nothing. -/
inductive PageOp where
  | waitTimeout (ms : Nat)
  | queryConsentSelectors
  | clickAccept
  | waitDialogGone
deriving DecidableEq, Repr

/-- The `for (attempt = 0..2)` loop of `dismissGoogleConsent` (lines
662-710).  `dialogPresent k` is the result of the `k`-th `page.$` query
over the consent selectors (queries are numbered in execution order).
An attempt that finds no dialog returns; otherwise it clicks, waits for
the dialog to go, re-queries, and either breaks (dialog gone) or, before
a further attempt, waits again.  Every failure inside is caught, so the
loop always terminates normally. -/
def dismissConsentLoop (dialogPresent : Nat → Bool) : Nat → Nat → List PageOp
  | _, 0 => []
  | k, attemptsLeft + 1 =>
    if dialogPresent k then
      [PageOp.queryConsentSelectors, PageOp.clickAccept, PageOp.waitDialogGone,
       PageOp.waitTimeout 1000, PageOp.queryConsentSelectors] ++
      (if dialogPresent (k + 1) then
        if attemptsLeft = 0 then []
        else PageOp.waitTimeout 1000 :: dismissConsentLoop dialogPresent (k + 2) attemptsLeft
      else [])
    else [PageOp.queryConsentSelectors]

/-- Source `dismissGoogleConsent(page)` (lines 641-714): when `page.url()`
contains no domain of `CONSENT_REGIONS`, the function returns before
touching the page; otherwise it waits two seconds and runs the dismissal
loop (three attempts).  Both the per-attempt `catch` and the outer
`try/catch` swallow every error, so the function never throws — hence the
total return type: the list of page operations performed. -/
def dismissGoogleConsent (currentUrl : String) (dialogPresent : Nat → Bool) : List PageOp :=
  if CONSENT_REGIONS.any (fun domain => jsIncludes currentUrl domain) then
    PageOp.waitTimeout 2000 :: dismissConsentLoop dialogPresent 0 3
  else []

/-! ## Circuit-breaker lemmas -/

/-- A reported failure always increments the counter and stamps
`lastFailure`, whatever the state. -/
theorem updateCircuitBreaker_false_fields (now : Nat) (cb : CircuitBreaker) :
    (updateCircuitBreaker now false cb).failures = cb.failures + 1 ∧
    (updateCircuitBreaker now false cb).lastFailure = now := by
  unfold updateCircuitBreaker
  split
  · simp_all
  · dsimp only
    split <;> simp

/-- No `updateCircuitBreaker` call leaves the `OPEN` state: only the
monitoring interval can. -/
theorem updateCircuitBreaker_open_stays (now : Nat) (b : Bool) (cb : CircuitBreaker)
    (h : cb.state = CBState.OPEN) :
    (updateCircuitBreaker now b cb).state = CBState.OPEN := by
  cases b with
  | false =>
    unfold updateCircuitBreaker
    split <;> simp [h]
  | true =>
    simp [updateCircuitBreaker, h]

/-- The monitoring tick does nothing while `resetTimeout` has not elapsed
since the last failure. -/
theorem circuitBreakerMonitorStep_too_early (t : Nat) (cb : CircuitBreaker)
    (h : t - cb.lastFailure ≤ CIRCUIT_BREAKER_CONFIG.resetTimeout) :
    circuitBreakerMonitorStep t cb = cb := by
  have hnot : ¬ CIRCUIT_BREAKER_CONFIG.resetTimeout < t - cb.lastFailure := Nat.not_lt.mpr h
  simp [circuitBreakerMonitorStep, hnot]

/-- An `OPEN` breaker stays `OPEN` through any sequence of
`updateCircuitBreaker` calls. -/
theorem runCircuitBreaker_open_stays (l : List (Nat × Bool)) (cb : CircuitBreaker)
    (h : cb.state = CBState.OPEN) :
    (runCircuitBreaker cb l).state = CBState.OPEN := by
  induction l generalizing cb with
  | nil => exact h
  | cons p rest ih =>
    obtain ⟨t, ok⟩ := p
    exact ih _ (updateCircuitBreaker_open_stays t ok cb h)

/-- From `CLOSED`, any outcome sequence whose failures (together with the
failures already counted) reach the threshold, and that contains at least
one failure, ends with the breaker `OPEN`. -/
theorem runCircuitBreaker_closed_opens (l : List (Nat × Bool)) (cb : CircuitBreaker)
    (hstate : cb.state = CBState.CLOSED)
    (hcount : CIRCUIT_BREAKER_CONFIG.failureThreshold ≤ cb.failures + failuresIn l)
    (hpos : 1 ≤ failuresIn l) :
    (runCircuitBreaker cb l).state = CBState.OPEN := by
  induction l generalizing cb with
  | nil => simp [failuresIn] at hpos
  | cons p rest ih =>
    obtain ⟨t, ok⟩ := p
    cases ok with
    | true =>
      have hupd : updateCircuitBreaker t true cb = { cb with lastSuccess := t } := by
        simp [updateCircuitBreaker, hstate]
      show (runCircuitBreaker (updateCircuitBreaker t true cb) rest).state = CBState.OPEN
      rw [hupd]
      exact ih { cb with lastSuccess := t } hstate hcount hpos
    | false =>
      show (runCircuitBreaker (updateCircuitBreaker t false cb) rest).state = CBState.OPEN
      by_cases hth : CIRCUIT_BREAKER_CONFIG.failureThreshold ≤ cb.failures + 1
      · have hopen : (updateCircuitBreaker t false cb).state = CBState.OPEN := by
          simp [updateCircuitBreaker, hth]
        exact runCircuitBreaker_open_stays rest _ hopen
      · have hupd : updateCircuitBreaker t false cb =
            { cb with failures := cb.failures + 1, lastFailure := t } := by
          simp [updateCircuitBreaker, hth]
        rw [hupd]
        have hcount' : CIRCUIT_BREAKER_CONFIG.failureThreshold ≤
            (cb.failures + 1) + failuresIn rest := by
          have : failuresIn ((t, false) :: rest) = failuresIn rest + 1 := rfl
          omega
        have hpos' : 1 ≤ failuresIn rest := by
          have : failuresIn ((t, false) :: rest) = failuresIn rest + 1 := rfl
          omega
        exact ih _ hstate hcount' hpos'

/-- A breaker sitting in `HALF_OPEN` with a cleared counter, as produced
by the monitoring transition. -/
def halfOpenBreaker : CircuitBreaker :=
  { state := CBState.HALF_OPEN, failures := 0, lastFailure := 0, lastSuccess := 0 }

/-- C1, counterexample: with the breaker in `HALF_OPEN` and the failure
counter at 0 (exactly the state the monitoring transition produces), a
single `updateCircuitBreaker(false)` call does NOT move the breaker to
`OPEN` — it stays `HALF_OPEN` with one recorded failure, because the code
only opens the circuit once `failures` reaches `failureThreshold` (2) and
has no special case for `HALF_OPEN`. -/
theorem updateCircuitBreaker_halfOpen_single_failure_cex :
    halfOpenBreaker.state = CBState.HALF_OPEN ∧
    halfOpenBreaker.failures = 0 ∧
    (updateCircuitBreaker 10 false halfOpenBreaker).state ≠ CBState.OPEN ∧
    (updateCircuitBreaker 10 false halfOpenBreaker).state = CBState.HALF_OPEN ∧
    (updateCircuitBreaker 10 false halfOpenBreaker).failures = 1 := by
  decide

/-- C1, amended: in `HALF_OPEN` with the counter reset to 0 (the state the
monitoring transition produces), one reported failure leaves the breaker
in `HALF_OPEN` with `failures = 1` and `lastFailure` stamped; the breaker
reaches `OPEN` only when the incremented counter hits `failureThreshold`
(= 2), i.e. on the second consecutive failure. -/
theorem updateCircuitBreaker_halfOpen_failure_needs_threshold
    (now later : Nat) (cb : CircuitBreaker)
    (hstate : cb.state = CBState.HALF_OPEN) (hfail : cb.failures = 0) :
    (updateCircuitBreaker now false cb).state = CBState.HALF_OPEN ∧
    (updateCircuitBreaker now false cb).failures = 1 ∧
    (updateCircuitBreaker now false cb).lastFailure = now ∧
    (updateCircuitBreaker later false (updateCircuitBreaker now false cb)).state =
      CBState.OPEN := by
  have h1 : updateCircuitBreaker now false cb =
      { cb with failures := 1, lastFailure := now } := by
    simp [updateCircuitBreaker, hfail, CIRCUIT_BREAKER_CONFIG.failureThreshold]
  rw [h1]
  refine ⟨hstate, rfl, rfl, ?_⟩
  simp [updateCircuitBreaker, CIRCUIT_BREAKER_CONFIG.failureThreshold]

/-- Witness for the amended C1 theorem at a concrete breaker. -/
theorem updateCircuitBreaker_halfOpen_failure_needs_threshold_witness :
    (updateCircuitBreaker 10 false halfOpenBreaker).state = CBState.HALF_OPEN ∧
    (updateCircuitBreaker 10 false halfOpenBreaker).failures = 1 ∧
    (updateCircuitBreaker 10 false halfOpenBreaker).lastFailure = 10 ∧
    (updateCircuitBreaker 20 false (updateCircuitBreaker 10 false halfOpenBreaker)).state =
      CBState.OPEN :=
  updateCircuitBreaker_halfOpen_failure_needs_threshold 10 20 halfOpenBreaker rfl rfl

/-- C9: every rejection of `acquirePage` — the `OPEN`-circuit fail-fast,
the full-queue fail-fast, and any rejection of the awaited queue promise
(queue timeout or `processQueue` failure) — runs the `catch`, whose
`updateCircuitBreaker(false)` increments the failure counter and stamps
`lastFailure` with the rejection time; hence, when the breaker was `OPEN`,
no monitoring tick within `resetTimeout` of that rejection can move it to
`HALF_OPEN`. -/
theorem acquirePage_rejection_reports_failure
    (now : Nat) (cb : CircuitBreaker) (queueLength : Nat)
    (body : Except String Nat) (e : String)
    (hrej : (acquirePage now cb queueLength body).2 = Except.error e) :
    (acquirePage now cb queueLength body).1.failures = cb.failures + 1 ∧
    (acquirePage now cb queueLength body).1.lastFailure = now ∧
    (cb.state = CBState.OPEN →
      ∀ t, t ≤ now + CIRCUIT_BREAKER_CONFIG.resetTimeout →
        (circuitBreakerMonitorStep t (acquirePage now cb queueLength body).1).state =
          CBState.OPEN) := by
  have hfalse : ∀ hcb : (acquirePage now cb queueLength body).1 =
        updateCircuitBreaker now false cb,
      (acquirePage now cb queueLength body).1.failures = cb.failures + 1 ∧
      (acquirePage now cb queueLength body).1.lastFailure = now ∧
      (cb.state = CBState.OPEN →
        ∀ t, t ≤ now + CIRCUIT_BREAKER_CONFIG.resetTimeout →
          (circuitBreakerMonitorStep t (acquirePage now cb queueLength body).1).state =
            CBState.OPEN) := by
    intro hcb
    rw [hcb]
    refine ⟨(updateCircuitBreaker_false_fields now cb).1,
            (updateCircuitBreaker_false_fields now cb).2, ?_⟩
    intro hopen t ht
    have hlf : (updateCircuitBreaker now false cb).lastFailure = now :=
      (updateCircuitBreaker_false_fields now cb).2
    have hsub : t - (updateCircuitBreaker now false cb).lastFailure ≤
        CIRCUIT_BREAKER_CONFIG.resetTimeout := by
      rw [hlf]; omega
    rw [circuitBreakerMonitorStep_too_early t _ hsub]
    exact updateCircuitBreaker_open_stays now false cb hopen
  by_cases h1 : cb.state = CBState.OPEN
  · exact hfalse (by simp [acquirePage, h1])
  · by_cases h2 : PERFORMANCE_CONFIG.maxQueueSize ≤ queueLength
    · exact hfalse (by simp [acquirePage, h1, h2])
    · cases body with
      | ok p => simp [acquirePage, h1, h2] at hrej
      | error e2 => exact hfalse (by simp [acquirePage, h1, h2])

/-- An `OPEN` breaker example for the C9 witness. -/
def openBreaker : CircuitBreaker :=
  { state := CBState.OPEN, failures := 2, lastFailure := 0, lastSuccess := 0 }

/-- Witness for C9: a concrete `acquirePage` call rejected because the
circuit is open. -/
theorem acquirePage_rejection_reports_failure_witness :
    (acquirePage 10 openBreaker 0 (Except.ok 0)).1.failures = openBreaker.failures + 1 ∧
    (acquirePage 10 openBreaker 0 (Except.ok 0)).1.lastFailure = 10 ∧
    (openBreaker.state = CBState.OPEN →
      ∀ t, t ≤ 10 + CIRCUIT_BREAKER_CONFIG.resetTimeout →
        (circuitBreakerMonitorStep t (acquirePage 10 openBreaker 0 (Except.ok 0)).1).state =
          CBState.OPEN) :=
  acquirePage_rejection_reports_failure 10 openBreaker 0 (Except.ok 0)
    "Circuit breaker is open, requests are blocked" rfl

/-- C10: while `CLOSED`, a success leaves the failure counter, the state
and `lastFailure` untouched (only `lastSuccess` is stamped); consequently
`failureThreshold` failures interleaved with any number of successes,
starting from a freshly reset `CLOSED` breaker, still open the circuit:
the counter counts total failures since the last reset, not consecutive
ones. -/
theorem updateCircuitBreaker_closed_success_frame :
    (∀ (now : Nat) (cb : CircuitBreaker), cb.state = CBState.CLOSED →
      updateCircuitBreaker now true cb =
        { state := cb.state, failures := cb.failures,
          lastFailure := cb.lastFailure, lastSuccess := now }) ∧
    (∀ (l : List (Nat × Bool)) (cb : CircuitBreaker),
      cb.state = CBState.CLOSED → cb.failures = 0 →
      CIRCUIT_BREAKER_CONFIG.failureThreshold ≤ failuresIn l →
      (runCircuitBreaker cb l).state = CBState.OPEN) := by
  constructor
  · intro now cb h
    simp [updateCircuitBreaker, h]
  · intro l cb hstate hzero hcount
    refine runCircuitBreaker_closed_opens l cb hstate (by omega) ?_
    have : (1 : Nat) ≤ CIRCUIT_BREAKER_CONFIG.failureThreshold := by decide
    omega

/-- Witness for C10: the frame fact at a concrete closed breaker, and a
concrete interleaved outcome sequence (fail, succeed, fail) that opens the
circuit. -/
theorem updateCircuitBreaker_closed_success_frame_witness :
    updateCircuitBreaker 5 true (initialCircuitBreaker 0) =
      { state := CBState.CLOSED, failures := 0, lastFailure := 0, lastSuccess := 5 } ∧
    (runCircuitBreaker (initialCircuitBreaker 0) [(1, false), (2, true), (3, false)]).state =
      CBState.OPEN :=
  ⟨updateCircuitBreaker_closed_success_frame.1 5 (initialCircuitBreaker 0) rfl,
   updateCircuitBreaker_closed_success_frame.2 [(1, false), (2, true), (3, false)]
     (initialCircuitBreaker 0) rfl rfl (by decide)⟩

/-! ## Queue-timeout, validator, consent and recycling theorems -/

/-- Splicing a pending entry out shortens the queue by exactly one. -/
theorem removeFirstEntryById_length (q : List QueueEntry) (eid : Nat)
    (h : q.any (fun e => e.id == eid) = true) :
    (removeFirstEntryById q eid).length + 1 = q.length := by
  induction q with
  | nil => simp at h
  | cons e rest ih =>
    by_cases he : e.id = eid
    · simp [removeFirstEntryById, he]
    · have h' : rest.any (fun x => x.id == eid) = true := by
        simpa [he] using h
      simp [removeFirstEntryById, he, ih h']

/-- C3: when the queue-timeout callback fires for an entry still in the
request queue, it rejects that entry's promise with the timeout error and
splices the entry out, so the queue length decreases by exactly one at
the moment of the rejection. -/
theorem queueTimeout_rejects_and_removes (st : PoolState) (now eid : Nat)
    (hpending : st.requestQueue.any (fun e => e.id == eid) = true) :
    (queueTimeoutFire st.requestQueue eid).2 = some "Request queue timeout" ∧
    (queueTimeoutStep now eid st).requestQueue.length + 1 = st.requestQueue.length := by
  have hlen := removeFirstEntryById_length st.requestQueue eid hpending
  constructor
  · simp [queueTimeoutFire, hpending]
  · simp [queueTimeoutStep, queueTimeoutFire, hpending, hlen]

/-- A concrete pool state with one pending queue entry. -/
def onePendingState : PoolState :=
  { pool := [], requestQueue := [{ id := 0, timestamp := 7 }],
    circuitBreaker := initialCircuitBreaker 0,
    nextInstanceId := 0, nextEntryId := 1 }

/-- Witness for C3 at a queue holding exactly one pending entry. -/
theorem queueTimeout_rejects_and_removes_witness :
    (queueTimeoutFire onePendingState.requestQueue 0).2 = some "Request queue timeout" ∧
    (queueTimeoutStep 20 0 onePendingState).requestQueue.length + 1 =
      onePendingState.requestQueue.length :=
  queueTimeout_rejects_and_removes onePendingState 20 0 (by decide)

/-- A page on which none of the five claimed signals fires, but which
reports a `performance.now()` reading above `criticalRequestThreshold`. -/
def cleanSlowPage : PageState :=
  { selectorPresent := fun _ => false,
    title := "Example Domain",
    bodyInnerText := some "alpha beta gamma delta epsilon zeta eta theta iota kappa lambda mu",
    loadTime := 20000, resourceCount := 0, memoryUsage := 0,
    url := "https://example.com/" }

/-- C4, counterexample: on `cleanSlowPage` none of the five signals named
by the claim fires — no bot-protection selector, clean title, 12 visible
words (above `minContentWords` = 10), no error-page phrase, and a final
URL containing neither `data:` nor `javascript:` — yet `validatePage`
returns `isValid = false`, because of a sixth signal in the source: the
load-time check against `criticalRequestThreshold` (lines 617-622). -/
theorem validatePage_sixth_signal_cex :
    (pageEvaluateValidation cleanSlowPage).botProtection = false ∧
    (pageEvaluateValidation cleanSlowPage).suspiciousTitle = false ∧
    BROWSER_CONFIG.minContentWords ≤ (pageEvaluateValidation cleanSlowPage).wordCount ∧
    (pageEvaluateValidation cleanSlowPage).hasErrorContent = false ∧
    jsIncludes cleanSlowPage.url "data:" = false ∧
    jsIncludes cleanSlowPage.url "javascript:" = false ∧
    validatePage cleanSlowPage =
      { isValid := false, error := some "Page load time exceeded critical threshold" } := by
  decide

/-- C4, amended: a page on which none of SIX signals fires — the five
claimed ones plus the load-time check against `criticalRequestThreshold`
— is declared valid; only those six signals can invalidate a page. -/
theorem validatePage_valid_of_no_signals (p : PageState)
    (h1 : (pageEvaluateValidation p).botProtection = false)
    (h2 : (pageEvaluateValidation p).suspiciousTitle = false)
    (h3 : BROWSER_CONFIG.minContentWords ≤ (pageEvaluateValidation p).wordCount)
    (h4 : (pageEvaluateValidation p).hasErrorContent = false)
    (h5 : (pageEvaluateValidation p).performanceMetrics.loadTime ≤
            PERFORMANCE_CONFIG.criticalRequestThreshold)
    (h6 : jsIncludes p.url "data:" = false)
    (h7 : jsIncludes p.url "javascript:" = false) :
    validatePage p = { isValid := true, error := none } := by
  have h3' : ¬ ((pageEvaluateValidation p).wordCount < BROWSER_CONFIG.minContentWords) :=
    Nat.not_lt.mpr h3
  have h5' : ¬ (PERFORMANCE_CONFIG.criticalRequestThreshold <
      (pageEvaluateValidation p).performanceMetrics.loadTime) :=
    Nat.not_lt.mpr h5
  unfold validatePage
  simp [h1, h2, h3', h4, h5', h6, h7]

/-- A page with ample clean content, fast load, clean URL. -/
def cleanFastPage : PageState :=
  { selectorPresent := fun _ => false,
    title := "Example Domain",
    bodyInnerText := some "alpha beta gamma delta epsilon zeta eta theta iota kappa lambda mu",
    loadTime := 120, resourceCount := 3, memoryUsage := 1000,
    url := "https://example.com/" }

/-- Witness for the amended C4 theorem at a concrete signal-free page. -/
theorem validatePage_valid_of_no_signals_witness :
    validatePage cleanFastPage = { isValid := true, error := none } :=
  validatePage_valid_of_no_signals cleanFastPage (by decide) (by decide) (by decide)
    (by decide) (by decide) (by decide) (by decide)

/-- C7: when `page.url()` contains no domain of the consent-region list,
`dismissGoogleConsent` returns straight after the guard: it performs no
page operation at all (no wait, no query, no click, no script), and —
since its only `throw`-free paths are guarded by the error-swallowing
`try/catch` blocks modelled by the total return type — raises no
exception. -/
theorem dismissGoogleConsent_noop_outside_regions
    (currentUrl : String) (dialogPresent : Nat → Bool)
    (h : CONSENT_REGIONS.any (fun domain => jsIncludes currentUrl domain) = false) :
    dismissGoogleConsent currentUrl dialogPresent = [] := by
  simp [dismissGoogleConsent, h]

/-- Witness for C7: a URL outside every consent region, with a consent
dialog that would be found were the page ever queried. -/
theorem dismissGoogleConsent_noop_outside_regions_witness :
    dismissGoogleConsent "https://example.org/page" (fun _ => true) = [] :=
  dismissGoogleConsent_noop_outside_regions "https://example.org/page" (fun _ => true)
    (by decide)

/-- An instance whose context holds exactly its current page, plus stored
cookies and permissions and a nonzero failure/memory record. -/
def wornInstance : BrowserInstance :=
  { id := 0, browserAlive := true,
    context := { cookies := ["CONSENT=YES"], permissions := ["geolocation"],
                 openPages := [0], nextPageId := 1, alive := true },
    page := 0, lastUsed := 0, memoryUsage := 42, failureCount := 2 }

/-- C8, counterexample: recycling `wornInstance` (current page 0, open)
does NOT close the instance's current page — page 0 is still open in the
context afterwards, next to the freshly opened page 1.  The source's
filter (line 307) closes every page EXCEPT `instance.page`; the current
page itself is never closed (unlike the patchright variant, which closes
it first). -/
theorem recycleBrowserInstance_cex :
    wornInstance.page = 0 ∧
    wornInstance.context.openPages.contains 0 = true ∧
    (recycleBrowserInstance 100 wornInstance).context.openPages = [0, 1] ∧
    (recycleBrowserInstance 100 wornInstance).context.openPages.contains 0 = true ∧
    (recycleBrowserInstance 100 wornInstance).page = 1 := by
  decide

/-- C8, amended: a successful `recycleBrowserInstance` clears cookies and
permissions on the context, closes every page of the context EXCEPT the
instance's current page (which stays open), replaces the instance's page
with a freshly opened one, stamps `lastUsed`, resets `failureCount` and
`memoryUsage` to zero, and leaves the browser process and the context
alive. -/
theorem recycleBrowserInstance_success_effects (now : Nat) (inst : BrowserInstance)
    (hopen : inst.context.openPages.contains inst.page = true) :
    (recycleBrowserInstance now inst).context.cookies = [] ∧
    (recycleBrowserInstance now inst).context.permissions = [] ∧
    (recycleBrowserInstance now inst).context.openPages =
      inst.context.openPages.filter (fun p => p == inst.page) ++ [inst.context.nextPageId] ∧
    (recycleBrowserInstance now inst).context.openPages.contains inst.page = true ∧
    (recycleBrowserInstance now inst).page = inst.context.nextPageId ∧
    (recycleBrowserInstance now inst).lastUsed = now ∧
    (recycleBrowserInstance now inst).failureCount = 0 ∧
    (recycleBrowserInstance now inst).memoryUsage = 0 ∧
    (recycleBrowserInstance now inst).browserAlive = inst.browserAlive ∧
    (recycleBrowserInstance now inst).context.alive = inst.context.alive := by
  refine ⟨rfl, rfl, rfl, ?_, rfl, rfl, rfl, rfl, rfl, rfl⟩
  have hmem : inst.page ∈ inst.context.openPages := by
    simpa using hopen
  have hmemf : inst.page ∈ inst.context.openPages.filter (fun p => p == inst.page) :=
    List.mem_filter.mpr ⟨hmem, by simp⟩
  show ((inst.context.openPages.filter (fun p => p == inst.page)) ++
      [inst.context.nextPageId]).contains inst.page = true
  simp [List.contains_eq_any_beq]
  exact Or.inl (by simpa using hmemf)

/-- Witness for the amended C8 theorem at `wornInstance`. -/
theorem recycleBrowserInstance_success_effects_witness :
    (recycleBrowserInstance 100 wornInstance).context.cookies = [] ∧
    (recycleBrowserInstance 100 wornInstance).context.permissions = [] ∧
    (recycleBrowserInstance 100 wornInstance).context.openPages =
      wornInstance.context.openPages.filter (fun p => p == wornInstance.page) ++
        [wornInstance.context.nextPageId] ∧
    (recycleBrowserInstance 100 wornInstance).context.openPages.contains
      wornInstance.page = true ∧
    (recycleBrowserInstance 100 wornInstance).page = wornInstance.context.nextPageId ∧
    (recycleBrowserInstance 100 wornInstance).lastUsed = 100 ∧
    (recycleBrowserInstance 100 wornInstance).failureCount = 0 ∧
    (recycleBrowserInstance 100 wornInstance).memoryUsage = 0 ∧
    (recycleBrowserInstance 100 wornInstance).browserAlive = wornInstance.browserAlive ∧
    (recycleBrowserInstance 100 wornInstance).context.alive = wornInstance.context.alive :=
  recycleBrowserInstance_success_effects 100 wornInstance (by decide)

/-! ## Navigation theorems -/

/-- When every attempt fails, the retry loop runs all remaining attempts
and throws the terminal error built from the final attempt count and the
last attempt's message. -/
theorem navLoopGo_all_fail (attempt : Nat → Except String Unit) (msgs : Nat → String)
    (hfail : ∀ n, attempt n = Except.error (msgs n)) :
    ∀ (remaining done : Nat), 1 ≤ remaining →
      navLoopGo attempt done remaining =
        (Except.error (navFailedMsg (done + remaining) (msgs (done + remaining - 1))),
         done + remaining) := by
  intro remaining
  induction remaining with
  | zero => intro done h; omega
  | succ r ih =>
    intro done _
    by_cases hr : r = 0
    · subst hr
      simp [navLoopGo, hfail done]
    · have h1 : 1 ≤ r := Nat.one_le_iff_ne_zero.mpr hr
      have step : navLoopGo attempt done (r + 1) = navLoopGo attempt (done + 1) r := by
        simp [navLoopGo, hfail done, hr]
      rw [step, ih (done + 1) h1]
      have e1 : done + 1 + r = done + (r + 1) := by omega
      rw [e1]

/-- C5: for a URL that passes validation (allowed protocol, length within
the limit) whose every navigation attempt fails, `safePageNavigation`
performs exactly `maxRetries` attempts and then throws the error
`"Navigation failed after <maxRetries> attempts: <last message>"`, which
carries the attempt count and the last underlying error message. -/
theorem safePageNavigation_retry_ceiling (u : UrlString) (p : ParsedUrl)
    (env : Nat → AttemptEnv) (msgs : Nat → String)
    (hp : u.parsed = some p)
    (hproto : SECURITY_CONFIG.allowedProtocols.contains p.protocol = true)
    (hlen : u.raw.length ≤ SECURITY_CONFIG.maxUrlLength)
    (hfail : ∀ n, runAttempt u.raw (env n) = Except.error (msgs n)) :
    safePageNavigation u env =
      (Except.error (navFailedMsg BROWSER_CONFIG.maxRetries
        (msgs (BROWSER_CONFIG.maxRetries - 1))), BROWSER_CONFIG.maxRetries) := by
  have hloop := navLoopGo_all_fail (fun n => runAttempt u.raw (env n)) msgs hfail
    BROWSER_CONFIG.maxRetries 0 (by decide)
  simp only [Nat.zero_add] at hloop
  unfold safePageNavigation
  rw [hp]
  simp only [hproto, if_true, Nat.not_lt.mpr hlen, if_false]
  exact hloop

/-- The URL `https://example.com/`, as `new URL` parses it. -/
def httpsExampleUrl : UrlString :=
  { raw := "https://example.com/",
    parsed := some { protocol := "https:", hostname := "example.com" } }

/-- A driver that answers every attempt with HTTP 500 and no redirect. -/
def alwaysHttp500 : Nat → AttemptEnv := fun _ =>
  { response := some (500, "Internal Server Error"),
    validation := { isValid := true, error := none },
    finalUrl := httpsExampleUrl }

/-- Witness for C5: against an always-HTTP-500 server, navigation to
`https://example.com/` makes exactly 2 (= `maxRetries`) attempts and
throws the terminal error carrying that count and the HTTP message. -/
theorem safePageNavigation_retry_ceiling_witness :
    safePageNavigation httpsExampleUrl alwaysHttp500 =
      (Except.error (navFailedMsg 2 "HTTP 500: Internal Server Error"), 2) :=
  safePageNavigation_retry_ceiling httpsExampleUrl
    { protocol := "https:", hostname := "example.com" } alwaysHttp500
    (fun _ => "HTTP 500: Internal Server Error") rfl (by decide) (by decide)
    (fun _ => rfl)

/-- C6: a URL whose protocol is outside the allowed set, or whose length
exceeds `maxUrlLength`, makes `safePageNavigation` throw before the retry
loop: zero navigation attempts are performed (nothing to retry), and the
error is the protocol error or the length error. -/
theorem safePageNavigation_rejects_invalid_url (u : UrlString) (p : ParsedUrl)
    (env : Nat → AttemptEnv)
    (hp : u.parsed = some p)
    (hbad : SECURITY_CONFIG.allowedProtocols.contains p.protocol = false ∨
            SECURITY_CONFIG.maxUrlLength < u.raw.length) :
    (safePageNavigation u env).2 = 0 ∧
    ((safePageNavigation u env).1 =
        Except.error ("Unsupported protocol: " ++ p.protocol) ∨
     (safePageNavigation u env).1 = Except.error "URL exceeds maximum length") := by
  unfold safePageNavigation
  rw [hp]
  by_cases hc : SECURITY_CONFIG.allowedProtocols.contains p.protocol = true
  · have hlong : SECURITY_CONFIG.maxUrlLength < u.raw.length := by
      rcases hbad with hb | hb
      · rw [hc] at hb; cases hb
      · exact hb
    have hmem : p.protocol ∈ SECURITY_CONFIG.allowedProtocols := by simpa using hc
    simp [hmem, hlong]
  · have hnmem : p.protocol ∉ SECURITY_CONFIG.allowedProtocols := by simpa using hc
    simp [hnmem]

/-- The URL `ftp://example.com`, as `new URL` parses it. -/
def ftpExampleUrl : UrlString :=
  { raw := "ftp://example.com",
    parsed := some { protocol := "ftp:", hostname := "example.com" } }

/-- Witness for C6 at `ftp://example.com`: immediate rejection, zero
attempts, whatever the driver would have done. -/
theorem safePageNavigation_rejects_invalid_url_witness :
    (safePageNavigation ftpExampleUrl alwaysHttp500).2 = 0 ∧
    ((safePageNavigation ftpExampleUrl alwaysHttp500).1 =
        Except.error ("Unsupported protocol: " ++ "ftp:") ∨
     (safePageNavigation ftpExampleUrl alwaysHttp500).1 =
        Except.error "URL exceeds maximum length") :=
  safePageNavigation_rejects_invalid_url ftpExampleUrl
    { protocol := "ftp:", hostname := "example.com" } alwaysHttp500 rfl
    (Or.inl (by decide))

/-! ## Pool-bound invariant -/

/-- Replacing a pool element in place never changes the pool's size. -/
theorem setFirstById_length (l : List BrowserInstance) (tid : Nat) (v : BrowserInstance) :
    (setFirstById l tid v).length = l.length := by
  induction l with
  | nil => rfl
  | cons inst rest ih =>
    unfold setFirstById
    split <;> simp [ih]

/-- Stamping `lastUsed` on the first available instance never changes the
pool's size. -/
theorem touchFirstAvailable_length (now : Nat) (l : List BrowserInstance) :
    (touchFirstAvailable now l).length = l.length := by
  induction l with
  | nil => rfl
  | cons inst rest ih =>
    unfold touchFirstAvailable
    split <;> simp [ih]

/-- The maintenance sweep can only shrink the pool. -/
theorem cleanupExpiredInstances_length_le (now : Nat) (pool : List BrowserInstance) :
    (cleanupExpiredInstances now pool).length ≤ pool.length :=
  List.length_filter_le _ _

/-- Lemma: `processQueue` preserves the pool bound: the only branch that grows
the pool is guarded by `pool.length < maxConcurrentBrowsers`. -/
theorem processQueue_pool_bound (now : Nat) (c r rc : Bool) (st : PoolState)
    (h : st.pool.length ≤ SERVER_CONFIG.maxConcurrentBrowsers) :
    (processQueue now c r rc st).pool.length ≤ SERVER_CONFIG.maxConcurrentBrowsers := by
  have hclean : (cleanupExpiredInstances now st.pool).length ≤ st.pool.length :=
    cleanupExpiredInstances_length_le now st.pool
  unfold processQueue
  cases hq : st.requestQueue with
  | nil => exact h
  | cons entry rest =>
    dsimp only
    by_cases ha : (cleanupExpiredInstances now st.pool).any instanceAvailable
    · simp only [ha, if_true]
      rw [touchFirstAvailable_length]
      omega
    · simp only [ha, Bool.false_eq_true, if_false]
      by_cases hlt : (cleanupExpiredInstances now st.pool).length <
          SERVER_CONFIG.maxConcurrentBrowsers
      · simp only [hlt, if_true]
        cases c with
        | true => rw [if_pos rfl]; simp; omega
        | false => simp only [Bool.false_eq_true, if_false]; omega
      · simp only [hlt, if_false]
        cases hp : cleanupExpiredInstances now st.pool with
        | nil => simp
        | cons i t =>
          dsimp only
          cases r with
          | true =>
            rw [if_pos rfl]
            rw [setFirstById_length]
            rw [hp] at hclean
            omega
          | false =>
            simp only [Bool.false_eq_true, if_false]
            cases rc with
            | true =>
              rw [if_pos rfl]
              rw [setFirstById_length]
              rw [hp] at hclean
              omega
            | false =>
              simp only [Bool.false_eq_true, if_false]
              rw [hp] at hclean
              simpa using Nat.le_trans hclean h

/-- The performance-monitoring tick preserves the pool bound (it only
replaces elements in place). -/
theorem perfMonitorStep_pool_bound (now instId mem : Nat) (r rc : Bool) (st : PoolState)
    (h : st.pool.length ≤ SERVER_CONFIG.maxConcurrentBrowsers) :
    (perfMonitorStep now instId mem r rc st).pool.length ≤
      SERVER_CONFIG.maxConcurrentBrowsers := by
  unfold perfMonitorStep
  cases hf : st.pool.find? (fun i => i.id == instId) with
  | none => exact h
  | some inst =>
    dsimp only
    by_cases hm : BROWSER_CONFIG.maxMemoryMB * 1024 * 1024 < mem
    · simp only [hm, if_true]
      cases r with
      | true =>
        rw [if_pos rfl]
        simp [setFirstById_length, h]
      | false =>
        simp only [Bool.false_eq_true, if_false]
        cases rc with
        | true =>
          rw [if_pos rfl]
          simp [setFirstById_length, h]
        | false =>
          simp only [Bool.false_eq_true, if_false]
          simp [setFirstById_length, h]
    · simp only [hm, if_false]
      simp [setFirstById_length, h]

/-- One `acquirePage` call preserves the pool bound. -/
theorem acquireStep_pool_bound (now : Nat) (c r rc : Bool) (st : PoolState)
    (h : st.pool.length ≤ SERVER_CONFIG.maxConcurrentBrowsers) :
    (acquireStep now c r rc st).pool.length ≤ SERVER_CONFIG.maxConcurrentBrowsers := by
  unfold acquireStep
  by_cases h1 : st.circuitBreaker.state = CBState.OPEN
  · simp only [h1, if_true]; exact h
  · simp only [h1, if_false]
    by_cases h2 : PERFORMANCE_CONFIG.maxQueueSize ≤ st.requestQueue.length
    · simp only [h2, if_true]; exact h
    · simp only [h2, if_false]
      exact processQueue_pool_bound now c r rc _ h

/-- Every pool event preserves the pool bound. -/
theorem poolStep_pool_bound (st : PoolState) (e : PoolEvent)
    (h : st.pool.length ≤ SERVER_CONFIG.maxConcurrentBrowsers) :
    (poolStep st e).pool.length ≤ SERVER_CONFIG.maxConcurrentBrowsers := by
  cases e with
  | acquire now c r rc => exact acquireStep_pool_bound now c r rc st h
  | sweep now => exact Nat.le_trans (cleanupExpiredInstances_length_le now st.pool) h
  | queueTimeoutFires now eid =>
    show (queueTimeoutStep now eid st).pool.length ≤ SERVER_CONFIG.maxConcurrentBrowsers
    unfold queueTimeoutStep
    dsimp only
    split <;> exact h
  | perfCheck now iid mem r rc => exact perfMonitorStep_pool_bound now iid mem r rc st h
  | shutdown => exact Nat.zero_le _

/-- C2: starting from the empty pool, no sequence of `acquirePage` calls,
maintenance sweeps, queue-timeout firings, performance-monitor ticks and
shutdowns ever makes the pool hold more than `maxConcurrentBrowsers`
instances: `processQueue` pushes a new instance only under its
`pool.length < maxConcurrentBrowsers` guard, and every other operation
replaces in place, shrinks, or leaves the pool alone. -/
theorem pool_size_never_exceeds_max (startTime : Nat) (events : List PoolEvent) :
    (runPool (initialPoolState startTime) events).pool.length ≤
      SERVER_CONFIG.maxConcurrentBrowsers := by
  suffices hrun : ∀ (evs : List PoolEvent) (st : PoolState),
      st.pool.length ≤ SERVER_CONFIG.maxConcurrentBrowsers →
      (runPool st evs).pool.length ≤ SERVER_CONFIG.maxConcurrentBrowsers by
    exact hrun events (initialPoolState startTime) (by simp [initialPoolState])
  intro evs
  induction evs with
  | nil => intro st h; exact h
  | cons e rest ih =>
    intro st h
    exact ih (poolStep st e) (poolStep_pool_bound st e h)

end WebResearch
